import Mathlib

/-! Shallow embedding of `src/app.py`, an AI-assisted Streamlit app generator.
The parts embedded here are the ones the verified claims are about: the
workspace file helpers (`read_file`, `save_file`, `delete_file`), the live
preview subprocess supervisor (`start_preview`, `stop_preview`), the code
fence stripper `_clean_ai_response_text`, and the AI command interpreter
`parse_and_execute_ai_commands`.

Modelling conventions, fixed once for the whole file:
* Python strings are embedded as `List Char` (`PyStr`).
* The workspace directory `WORKSPACE_DIR` is embedded as an association list
  from filename to file content.
* Streamlit session state is an explicit record threaded through the
  functions; Streamlit display calls (`st.error`, `st.warning`, `st.toast`,
  `st.info`, `st.spinner`) have no effect on the embedded state.
  `st.rerun()` raises `RerunException`, which derives from `BaseException`
  and so escapes every `except Exception` block in app.py, halting the
  current script run.  `delete_file` models this halt exactly (its
  `Except.error` outcome), and the halt propagates through the command
  interpreter.  In `start_preview` the stop of a previously recorded
  preview also ends in that halt; there the embedding lets execution
  continue into the spawn code that the follow-up run (the second button
  click the source's comments anticipate) performs: the stop-before-spawn
  ordering holds of the real truncated trace as well, whose head is still
  the stop event, and the liveness gate is stated on the idle path the
  program completes in one run.
* OS interaction with the spawned preview process is embedded as an
  enumeration of the observable branch outcomes of the Python code
  (process already exited, graceful stop, timeout then kill, ...), together
  with the trace of process-control calls the code makes in that branch.
* Python exceptions that escape a function are embedded with `Except`;
  exceptions the source catches locally are folded into the returned value,
  exactly as the source's `except` blocks do. -/

/-- Python strings, embedded as lists of characters. -/
abbrev PyStr := List Char

/-- The workspace directory: an association list from filename to the raw
character content stored on disk.  `WORKSPACE_DIR` in the source is a flat
directory of text files. -/
abbrev Workspace := List (PyStr × PyStr)

/-- Look up the stored content of a file, `none` when no such file exists
(Python: `filepath.is_file()` false, or `open` raising `FileNotFoundError`). -/
def wsRead (ws : Workspace) (f : PyStr) : Option PyStr :=
  (ws.find? (fun e => decide (e.1 = f))).map (fun e => e.2)

/-- Remove a file from the workspace (Python: `os.remove`). -/
def wsRemove (ws : Workspace) (f : PyStr) : Workspace :=
  ws.filter (fun e => decide (e.1 ≠ f))

/-- Create or overwrite a file with the given raw content (Python:
`open(filepath, "w")` followed by `f.write`). -/
def wsInsert (ws : Workspace) (f c : PyStr) : Workspace :=
  (f, c) :: wsRemove ws f

/-- Boolean test that two consecutive dot characters occur somewhere in the
string.  A two-character pattern is a substring exactly when its two
characters occur adjacently, so this is the Python membership test
`".." in filename`. -/
def hasDotDot : PyStr → Bool
  | [] => false
  | c :: rest => ((c == '.') && (rest.head? == some '.')) || hasDotDot rest

/-- Python `filename.startswith(("/", "\\"))`. -/
def startsSlash : PyStr → Bool
  | c :: _ => c == '/' || c == '\\'
  | [] => false

/-- The path guard shared by `read_file`, `save_file` and `delete_file`
(src/app.py lines 132, 152, 171):
`".." in filename or filename.startswith(("/", "\\"))`. -/
def invalid_path (f : PyStr) : Bool :=
  hasDotDot f || startsSlash f

/-- Universal-newlines translation performed by Python text-mode reads with
the default `newline=None` (io module documentation): each `"\r\n"` pair and
each lone `"\r"` is translated to `"\n"`.  Text-mode writes with
`newline=None` translate `"\n"` to `os.linesep`, which is the identity on
POSIX, so writes store the content unchanged. -/
def universalNewlines : PyStr → PyStr
  | [] => []
  | [c] => if c = '\r' then ['\n'] else [c]
  | c :: d :: rest =>
    if c = '\r' then
      if d = '\n' then '\n' :: universalNewlines rest
      else '\n' :: universalNewlines (d :: rest)
    else c :: universalNewlines (d :: rest)

/-- Embeds `read_file` (src/app.py lines 127-145).  Empty filenames and
filenames failing the path guard yield `None` before any file-system access;
a missing file (`FileNotFoundError`) and any other read error also yield
`None`.  A successful text-mode read returns the stored content after
universal-newlines translation. -/
def read_file (ws : Workspace) (filename : PyStr) : Option PyStr :=
  if filename.isEmpty then none
  else if invalid_path filename then none
  else (wsRead ws filename).map universalNewlines

/-- Embeds `save_file` (src/app.py lines 148-164) on string arguments, the
only ones that arise outside the AI command loop.  Empty filenames and
filenames failing the path guard yield `False` before any file-system
access; otherwise the content is written wholesale and `True` returned. -/
def save_file (ws : Workspace) (filename content : PyStr) : Workspace × Bool :=
  if filename.isEmpty then (ws, false)
  else if invalid_path filename then (ws, false)
  else (wsInsert ws filename content, true)

/-! POSIX resolution of the joined path `WORKSPACE_DIR / filename`, used to
state that accepted filenames stay inside the workspace directory.  `pathlib`
drops empty and `"."` components when joining; the kernel resolves `".."`
components against the directory stack (symbolic links are outside the
model). -/

/-- The name of the workspace directory, `WORKSPACE_DIR = Path("workspace_st_apps")`. -/
def wsDirName : PyStr := "workspace_st_apps".data

/-- Split a relative path into its `"/"`-separated components, skipping
empty components, with `cur` the partial component read so far. -/
def pathComponents (cur : PyStr) : PyStr → List PyStr
  | [] => if cur.isEmpty then [] else [cur]
  | c :: rest =>
    if c = '/' then
      (if cur.isEmpty then pathComponents [] rest
       else cur :: pathComponents [] rest)
    else pathComponents (cur ++ [c]) rest

/-- One step of POSIX path resolution on a directory stack rooted at the
process working directory: `"."` is dropped, `".."` pops one directory, and
popping past the working directory (`none`) leaves the subtree below it for
good. -/
def resolveStep : Option (List PyStr) → PyStr → Option (List PyStr)
  | none, _ => none
  | some stack, comp =>
    if comp = ['.'] then some stack
    else if comp = ['.', '.'] then
      (if stack.isEmpty then none else some stack.dropLast)
    else some (stack ++ [comp])

/-- The resolved form of `WORKSPACE_DIR / filename` as a component stack
relative to the process working directory. -/
def resolvedPath (f : PyStr) : Option (List PyStr) :=
  (pathComponents [] f).foldl resolveStep (some [wsDirName])

/-- The joined path resolves to the workspace directory or somewhere below
it. -/
def insideWorkspace (f : PyStr) : Bool :=
  match resolvedPath f with
  | some (w :: _) => decide (w = wsDirName)
  | _ => false

/-! Preview subprocess supervisor (src/app.py lines 464-617). -/

/-- The observable ways the Python branches of `stop_preview` can play out
for a live `subprocess.Popen` handle, covering every branch of
src/app.py lines 479-513. -/
inductive StopBehavior where
  /-- `poll()` returned an exit code: the process had already finished. -/
  | alreadyExited
  /-- `terminate()` then `wait(timeout=3)` returned in time. -/
  | graceful
  /-- `wait(timeout=3)` raised `TimeoutExpired`, the re-poll still showed the
  process alive, so it was killed and `wait(timeout=1)` returned. -/
  | timeoutKill
  /-- As `timeoutKill`, but the one-second wait after `kill()` itself raised
  `TimeoutExpired`, landing in the generic handler. -/
  | timeoutKillWaitTimeout
  /-- `wait(timeout=3)` raised `TimeoutExpired` but the re-poll showed the
  process had exited meanwhile, so no kill was issued. -/
  | timeoutExited
  /-- `terminate()` raised `ProcessLookupError`. -/
  | lookupErr
  /-- `terminate()` raised some other exception, caught by the generic
  handler. -/
  | otherErr
deriving DecidableEq

/-- Process-control calls issued to the preview process, with wait budgets
in seconds. -/
inductive ProcAction where
  | terminate
  | waitOk (secs : Nat)
  | waitTimeout (secs : Nat)
  | kill
deriving DecidableEq

/-- The trace of process-control calls `stop_preview` makes on a live handle
in each branch (src/app.py lines 479-502). -/
def stopActions : StopBehavior → List ProcAction
  | .alreadyExited => []
  | .graceful => [.terminate, .waitOk 3]
  | .timeoutKill => [.terminate, .waitTimeout 3, .kill, .waitOk 1]
  | .timeoutKillWaitTimeout => [.terminate, .waitTimeout 3, .kill, .waitTimeout 1]
  | .timeoutExited => [.terminate, .waitTimeout 3]
  | .lookupErr => [.terminate]
  | .otherErr => [.terminate]

/-- A spawned preview process handle: its OS pid and how it will behave when
`stop_preview` is asked to stop it. -/
structure Proc where
  pid : Nat
  behavior : StopBehavior
deriving DecidableEq

/-- The session-state fields of `initialize_session_state`
(src/app.py lines 87-102) that the embedded functions touch.  The chat
message list is never read by them and is omitted. -/
structure SessionState where
  selected_file : Option PyStr
  file_content_on_load : PyStr
  editor_unsaved_content : PyStr
  last_saved_content : PyStr
  preview_process : Option Proc
  preview_port : Option Nat
  preview_url : Option PyStr
  preview_file : Option PyStr
deriving DecidableEq

/-- The defaults installed by `initialize_session_state`. -/
def initialSession : SessionState :=
  { selected_file := none
    file_content_on_load := []
    editor_unsaved_content := []
    last_saved_content := []
    preview_process := none
    preview_port := none
    preview_url := none
    preview_file := none }

/-- Embeds `stop_preview` (src/app.py lines 472-520).  When a process handle
with a truthy pid is recorded, the branch-dependent process-control calls of
lines 479-513 are issued; in every branch the four preview fields are then
cleared (lines 515-519 run after all `except` handlers).  Line 520 finally
calls `st.rerun()`, halting the script run; that halt is modelled at the
call sites, as described in the header. -/
def stop_preview (st : SessionState) : SessionState × List ProcAction :=
  let acts : List ProcAction :=
    match st.preview_process with
    | some p => if p.pid ≠ 0 then stopActions p.behavior else []
    | none => []
  ({ st with
      preview_process := none
      preview_port := none
      preview_url := none
      preview_file := none }, acts)

/-- Empty the editor-related session fields, as `delete_file` does when the
deleted file was the one selected (src/app.py lines 186-190). -/
def clearedEditor (st : SessionState) : SessionState :=
  { st with
      selected_file := none
      file_content_on_load := []
      editor_unsaved_content := []
      last_saved_content := [] }

/-- Embeds `delete_file` (src/app.py lines 167-199) on string arguments.
Empty filenames and filenames failing the path guard yield `False` before
any file-system access; a filename that is not an existing file yields
`False` and changes nothing.  On success the file is removed first
(line 178).  If the deleted file was the one being previewed, `stop_preview`
runs and ends with `st.rerun()` (line 520), whose `RerunException` derives
from `BaseException` and therefore escapes `delete_file`'s own
`except Exception`: the script run halts there, so the editor-clearing
lines 186-190 and the `return True` of line 191 are never reached — the
`Except.error` carries the workspace, session state and process-control
trace at the halt.  Otherwise the call returns normally, clearing the
editor selection when it pointed at this file. -/
def delete_file (ws : Workspace) (st : SessionState) (filename : PyStr) :
    Except (Workspace × SessionState × List ProcAction)
      (Workspace × SessionState × Bool × List ProcAction) :=
  if filename.isEmpty then .ok (ws, st, false, [])
  else if invalid_path filename then .ok (ws, st, false, [])
  else if (wsRead ws filename).isSome then
    if st.preview_file = some filename then
      .error (wsRemove ws filename, (stop_preview st).1, (stop_preview st).2)
    else if st.selected_file = some filename then
      .ok (wsRemove ws filename, clearedEditor st, true, [])
    else .ok (wsRemove ws filename, st, true, [])
  else .ok (ws, st, false, [])

/-- The last `"/"`-separated component of a path, `Path(...).name` for the
filenames arising here. -/
def lastComponent (cs : PyStr) : PyStr :=
  ((cs.reverse.takeWhile (fun c => c ≠ '/')).reverse)

/-- Embeds `pathlib`'s `Path(...).suffix`: the part of the final component
from its last dot, except that a dot at the very start of the component
(a dotfile) and a trailing dot yield no suffix. -/
def pySuffix (cs : PyStr) : PyStr :=
  match lastComponent cs with
  | [] => []
  | _ :: rest =>
    let after := (rest.reverse.takeWhile (fun c => c ≠ '.')).reverse
    if rest.contains '.' && !after.isEmpty then '.' :: after else []

/-- The preview URL recorded on a successful start:
`f"http://localhost:{port}"`. -/
def previewUrl (port : Nat) : PyStr :=
  ("http://localhost:" ++ toString port).data

/-- The early-return guard of `start_preview` (src/app.py line 527):
`not filepath.is_file() or filepath.suffix != ".py"`. -/
def startGuardFails (ws : Workspace) (filename : PyStr) : Bool :=
  (wsRead ws filename).isNone || decide (pySuffix filename ≠ ".py".data)

/-- Outcome of the spawn attempt inside `start_preview`'s `try` block:
either `_find_available_port()` / `subprocess.Popen` raised, or a process
was created and `poll()` after the 2.5 second sleep reports it alive or
already exited. -/
inductive SpawnOutcome where
  | spawnRaises
  | spawnedProc (p : Proc) (aliveAfterDelay : Bool)
deriving DecidableEq

/-- Externally visible events of one `start_preview` call, in order. -/
inductive PreviewEvent where
  /-- The previously recorded preview process was stopped, with the
  process-control trace of that embedded `stop_preview` call. -/
  | stoppedPrev (p : Proc) (acts : List ProcAction)
  /-- `time.sleep` for the given number of milliseconds. -/
  | sleptMs (ms : Nat)
  /-- `subprocess.Popen` created this process. -/
  | spawned (p : Proc)
deriving DecidableEq

/-- Embeds `start_preview` (src/app.py lines 523-617).  The file must exist
in the workspace and carry the `.py` suffix (lines 527-531).  A recorded
preview process is stopped first (lines 534-540).  After the spawn attempt
and the fixed 2.5 second sleep, a live `poll()` records process, port, URL
and filename and returns `True`; a dead process or a raising spawn resets
`preview_process` to `None` and returns `False` (lines 575-617).  The third
component is the ordered event trace of the call. -/
def start_preview (st : SessionState) (ws : Workspace) (filename : PyStr)
    (port : Nat) (outcome : SpawnOutcome) :
    SessionState × Bool × List PreviewEvent :=
  if startGuardFails ws filename then
    (st, false, [])
  else
    let stopped :
        SessionState × List PreviewEvent :=
      match st.preview_process with
      | some p =>
        let r := stop_preview st
        (r.1, [PreviewEvent.stoppedPrev p r.2, PreviewEvent.sleptMs 500])
      | none => (st, [])
    let st1 := stopped.1
    let evs1 := stopped.2
    match outcome with
    | .spawnRaises => ({ st1 with preview_process := none }, false, evs1)
    | .spawnedProc p alive =>
      let evs := evs1 ++ [PreviewEvent.spawned p, PreviewEvent.sleptMs 2500]
      if alive then
        ({ st1 with
            preview_process := some p
            preview_port := some port
            preview_url := some (previewUrl port)
            preview_file := some filename }, true, evs)
      else
        ({ st1 with preview_process := none }, false, evs)

/-! Fence stripping and the AI command interpreter (src/app.py lines 205-350). -/

/-- Characters removed by Python's `str.strip()` with no argument (the ASCII
whitespace set; the rarer Unicode whitespace characters do not occur in the
claims and are outside the model). -/
def pySpace (c : Char) : Bool :=
  c = ' ' || c = '\t' || c = '\n' || c = '\r' || c = '\x0b' || c = '\x0c'

/-- Python `text.strip()`. -/
def pyStrip (cs : PyStr) : PyStr :=
  ((cs.dropWhile pySpace).reverse.dropWhile pySpace).reverse

/-- Python `text.startswith(pre)`. -/
def startsWithL (text pre : PyStr) : Bool :=
  decide (text.take pre.length = pre)

/-- Embeds `_clean_ai_response_text` (src/app.py lines 205-212).  The Python
slice `text[a:-3]` keeps the characters from index `a` up to three before
the end, which is `(text.take (text.length - 3)).drop a`. -/
def cleanAiResponseText (s : PyStr) : PyStr :=
  if startsWithL (pyStrip s) "```json".data then
    pyStrip (((pyStrip s).take ((pyStrip s).length - 3)).drop 7)
  else if startsWithL (pyStrip s) "```".data then
    pyStrip (((pyStrip s).take ((pyStrip s).length - 3)).drop 3)
  else pyStrip s

/-- Values produced by `json.loads`.  JSON numbers are embedded as integers:
no embedded function inspects a number beyond Python truthiness, and the
claims use none of the fractional forms. -/
inductive Json where
  | null
  | bool (b : Bool)
  | num (n : Int)
  | str (s : PyStr)
  | arr (elems : List Json)
  | obj (fields : List (PyStr × Json))

/-- Python `dict.get` on a decoded JSON object; `json.loads` keeps the last
of duplicate keys, hence the reversed search. -/
def jsonGet (fields : List (PyStr × Json)) (k : PyStr) : Option Json :=
  (fields.reverse.find? (fun e => decide (e.1 = k))).map (fun e => e.2)

/-- Python truthiness of a decoded JSON value. -/
def pyTruthy : Json → Bool
  | .null => false
  | .bool b => b
  | .num n => n != 0
  | .str s => !s.isEmpty
  | .arr l => !l.isEmpty
  | .obj f => !f.isEmpty

/-- Truthiness of `dict.get`'s result, where a missing key is Python `None`. -/
def pyTruthyOpt : Option Json → Bool
  | none => false
  | some j => pyTruthy j

/-- Python `x is None` for `dict.get`'s result: the key is missing or its
decoded value is JSON `null`. -/
def pyIsNoneOpt : Option Json → Bool
  | none => true
  | some .null => true
  | some _ => false

/-- Python `value == "literal"` for a `dict.get` result: only an equal
string compares equal. -/
def isActionStr (a : Option Json) (s : PyStr) : Bool :=
  match a with
  | some (Json.str t) => decide (t = s)
  | _ => false

/-- Rendering of Python `str()` on decoded JSON values as used inside the
interpreter's f-string messages.  The rendering of arrays, objects and
numbers is simplified; no theorem in this file depends on its output. -/
def pyStr : Json → PyStr
  | .null => "None".data
  | .bool true => "True".data
  | .bool false => "False".data
  | .num n => (toString n).data
  | .str s => s
  | .arr _ => "[...]".data
  | .obj _ => "\x7b...\x7d".data

/-- As `pyStr`, for a `dict.get` result. -/
def pyStrOpt : Option Json → PyStr
  | none => "None".data
  | some j => pyStr j

/-- A chat record `{"action": "chat", "content": msg}` as built by the
interpreter's error and warning paths. -/
def chatRec (msg : PyStr) : Json :=
  Json.obj [("action".data, Json.str "chat".data),
            ("content".data, Json.str msg)]

/-- Embeds `save_file` as called from the command loop, where the decoded
JSON `filename` and `content` can have any type.  A falsy filename returns
`False`; a string filename follows `save_file` except that a non-string
content makes `f.write` raise inside the local `try`, after `open(..., "w")`
has already truncated the file, so the file is left empty and `False` is
returned; `".." in filename` on a list or dict is a membership test; on any
other truthy type the guard itself raises `TypeError`, which escapes
`save_file` (the guard sits before its `try` block). -/
def save_fileJ (ws : Workspace) (filename content : Option Json) :
    Except Unit (Workspace × Bool) :=
  if !pyTruthyOpt filename then .ok (ws, false)
  else
    match filename with
    | some (Json.str s) =>
      if invalid_path s then .ok (ws, false)
      else
        match content with
        | some (Json.str c) => .ok (save_file ws s c)
        | _ => .ok (wsInsert ws s [], false)
    | some (Json.arr l) =>
      if l.any (fun j => match j with
                         | Json.str t => decide (t = "..".data)
                         | _ => false)
      then .ok (ws, false) else .error ()
    | some (Json.obj fl) =>
      if fl.any (fun e => decide (e.1 = "..".data))
      then .ok (ws, false) else .error ()
    | _ => .error ()

/-- How control escapes the command loop other than by finishing it:
`caughtExc` is a Python exception (here the `TypeError` of the dynamic path
guard) that the generic `except Exception` of
`parse_and_execute_ai_commands` will catch, carrying the workspace and
session state at the raise; `rerunHalt` is the `RerunException` of
`st.rerun()` inside an embedded `stop_preview`, which derives from
`BaseException`, is caught by no handler in app.py and halts the script
run, carrying the state and the process-control trace at the halt. -/
inductive ScriptStop where
  | caughtExc (ws : Workspace) (st : SessionState)
  | rerunHalt (ws : Workspace) (st : SessionState) (acts : List ProcAction)

/-- Embeds `delete_file` as called from the command loop, with a decoded
JSON `filename` of any type; the dynamic behaviour of the path guard is as
in `save_fileJ`, and the `st.rerun()` halt of the string case propagates. -/
def delete_fileJ (ws : Workspace) (st : SessionState) (filename : Option Json) :
    Except ScriptStop (Workspace × SessionState × Bool × List ProcAction) :=
  if !pyTruthyOpt filename then .ok (ws, st, false, [])
  else
    match filename with
    | some (Json.str s) =>
      (match delete_file ws st s with
       | .ok r => .ok r
       | .error e => .error (ScriptStop.rerunHalt e.1 e.2.1 e.2.2))
    | some (Json.arr l) =>
      if l.any (fun j => match j with
                         | Json.str t => decide (t = "..".data)
                         | _ => false)
      then .ok (ws, st, false, []) else .error (ScriptStop.caughtExc ws st)
    | some (Json.obj fl) =>
      if fl.any (fun e => decide (e.1 = "..".data))
      then .ok (ws, st, false, []) else .error (ScriptStop.caughtExc ws st)
    | _ => .error (ScriptStop.caughtExc ws st)

/-- One iteration of the command loop of `parse_and_execute_ai_commands`
(src/app.py lines 241-331) on the accumulated display list `acc`.  Control
escaping the iteration is an `Except.error` tagged as in `ScriptStop`. -/
def execStep (cmd : Json) (ws : Workspace) (st : SessionState) (acc : List Json) :
    Except ScriptStop
      (Workspace × SessionState × List Json) :=
  match cmd with
  | Json.obj fields =>
    let acc1 := acc ++ [cmd]
    let action := jsonGet fields "action".data
    let filename := jsonGet fields "filename".data
    let content := jsonGet fields "content".data
    if isActionStr action "create_update".data then
      if pyTruthyOpt filename && !pyIsNoneOpt content then
        match save_fileJ ws filename content with
        | .error _ => .error (ScriptStop.caughtExc ws st)
        | .ok (ws', success) =>
          if success then
            let st' :=
              match filename, content with
              | some (Json.str s), some (Json.str c) =>
                if st.selected_file = some s then
                  { st with
                      file_content_on_load := c
                      last_saved_content := c
                      editor_unsaved_content := c }
                else st
              | _, _ => st
            .ok (ws', st', acc1)
          else
            .ok (ws', st,
              acc1 ++ [chatRec ("Error: Failed saving ".data ++ pyStrOpt filename)])
      else
        .ok (ws, st, acc1 ++ [chatRec "AI Warning: Invalid create_update".data])
    else if isActionStr action "delete".data then
      if pyTruthyOpt filename then
        match delete_fileJ ws st filename with
        | .error e => .error e
        | .ok (ws', st', success, _acts) =>
          if success then .ok (ws', st', acc1)
          else
            .ok (ws', st',
              acc1 ++ [chatRec ("Error: Failed deleting ".data ++ pyStrOpt filename)])
      else
        .ok (ws, st, acc1 ++ [chatRec "AI Warning: Invalid delete".data])
    else if isActionStr action "chat".data then
      .ok (ws, st, acc1)
    else
      .ok (ws, st,
        acc1 ++ [chatRec ("AI Warning: Unknown action '".data
                          ++ pyStrOpt action ++ "'".data)])
  | _ =>
    .ok (ws, st,
      acc ++ [chatRec ("AI Error: Invalid command format: ".data ++ pyStr cmd)])

/-- The command loop: apply `execStep` to each decoded command in order; an
escaping exception or a script halt abandons the remaining commands. -/
def execLoop : List Json → Workspace → SessionState → List Json →
    Except ScriptStop
      (Workspace × SessionState × List Json)
  | [], ws, st, acc => .ok (ws, st, acc)
  | cmd :: rest, ws, st, acc =>
    match execStep cmd ws st acc with
    | .ok (ws', st', acc') => execLoop rest ws' st' acc'
    | .error e => .error e

/-- Embeds `parse_and_execute_ai_commands` (src/app.py lines 215-350).
`json.loads` is passed in as `loads`, returning `none` when it would raise
`json.JSONDecodeError`.  A caught exception lands in the generic
`except Exception` of lines 346-350, whose message renders the exception;
only its constant lead `"Error processing commands: "` matters to any
theorem, and the rendering is fixed to the `TypeError` text arising from
the only catchable raising paths in the model.  A `RerunException` halt is
caught by no handler here either: it becomes the function's own
`Except.error`, carrying the workspace, session state and process-control
trace at the halt. -/
def parse_and_execute_ai_commands (loads : PyStr → Option Json)
    (input : PyStr) (ws : Workspace) (st : SessionState) :
    Except (Workspace × SessionState × List ProcAction)
      (Workspace × SessionState × List Json) :=
  match loads (cleanAiResponseText input) with
  | none =>
    .ok (ws, st,
      [chatRec ("AI Error: Invalid JSON received. Response: ".data ++ input)])
  | some (Json.arr cmds) =>
    (match execLoop cmds ws st [] with
     | .ok r => .ok r
     | .error (ScriptStop.caughtExc ws' st') =>
       .ok (ws', st', [chatRec "Error processing commands: TypeError".data])
     | .error (ScriptStop.rerunHalt ws' st' acts) => .error (ws', st', acts))
  | some _ =>
    .ok (ws, st,
      [chatRec ("AI Error: Response was not a list. Response: ".data
                ++ cleanAiResponseText input)])

/-- A decoded command list whose second command carries the number 7 as its
filename, as `json.loads` produces for
`[{"action": "create_update", "filename": "a.py", "content": "x"},
  {"action": "delete", "filename": 7},
  {"action": "create_update", "filename": "b.py", "content": "y"}]`
(braces shown here stand for the JSON object delimiters). -/
def typeErrCommands : List Json :=
  [Json.obj [("action".data, Json.str "create_update".data),
             ("filename".data, Json.str "a.py".data),
             ("content".data, Json.str "x".data)],
   Json.obj [("action".data, Json.str "delete".data),
             ("filename".data, Json.num 7)],
   Json.obj [("action".data, Json.str "create_update".data),
             ("filename".data, Json.str "b.py".data),
             ("content".data, Json.str "y".data)]]

/-! Helper lemmas. -/

/-- Adjacent dots in neither part of a concatenation once the whole is
dot-dot free. -/
theorem hasDotDot_append (xs ys : PyStr) (h : hasDotDot (xs ++ ys) = false) :
    hasDotDot xs = false ∧ hasDotDot ys = false := by
  induction xs with
  | nil => exact ⟨rfl, h⟩
  | cons a t ih =>
    rw [List.cons_append, hasDotDot, Bool.or_eq_false_iff] at h
    obtain ⟨h1, h2⟩ := h
    obtain ⟨ht, hy⟩ := ih h2
    refine ⟨?_, hy⟩
    rw [hasDotDot, Bool.or_eq_false_iff]
    refine ⟨?_, ht⟩
    cases t with
    | nil => simp
    | cons b t' => simpa using h1

/-- Every component of a dot-dot free path is itself dot-dot free. -/
theorem pathComponents_no_dotdot (cs : PyStr) :
    ∀ cur, hasDotDot (cur ++ cs) = false →
      ∀ comp ∈ pathComponents cur cs, hasDotDot comp = false := by
  induction cs with
  | nil =>
    intro cur h comp hm
    rw [pathComponents] at hm
    by_cases hc : cur.isEmpty
    · simp [hc] at hm
    · simp only [hc, if_false, Bool.false_eq_true, List.mem_singleton] at hm
      subst hm
      simpa using h
  | cons c rest ih =>
    intro cur h comp hm
    rw [pathComponents] at hm
    by_cases hslash : c = '/'
    · rw [if_pos hslash] at hm
      subst hslash
      have h' : hasDotDot ((cur ++ ['/']) ++ rest) = false := by
        simpa [List.append_assoc] using h
      have hrest := (hasDotDot_append _ _ h').2
      have hcur := (hasDotDot_append _ _ (hasDotDot_append _ _ h').1).1
      by_cases hc : cur.isEmpty
      · rw [if_pos hc] at hm
        exact ih [] (by simpa using hrest) comp hm
      · rw [if_neg hc] at hm
        rcases List.mem_cons.mp hm with rfl | hm'
        · exact hcur
        · exact ih [] (by simpa using hrest) comp hm'
    · rw [if_neg hslash] at hm
      exact ih (cur ++ [c]) (by simpa [List.append_assoc] using h) comp hm

/-- Resolution of components none of which is `".."` never pops the
workspace directory off the stack. -/
theorem resolve_foldl_keeps_head :
    ∀ (comps : List PyStr), (∀ comp ∈ comps, comp ≠ ['.', '.']) →
      ∀ w s, ∃ s', comps.foldl resolveStep (some (w :: s)) = some (w :: s') := by
  intro comps
  induction comps with
  | nil => intro _ w s; exact ⟨s, rfl⟩
  | cons comp rest ih =>
    intro hc w s
    have hcomp : comp ≠ ['.', '.'] := hc comp (List.mem_cons_self _ _)
    have hrest : ∀ c ∈ rest, c ≠ ['.', '.'] :=
      fun c hm => hc c (List.mem_cons_of_mem _ hm)
    rw [List.foldl_cons]
    by_cases hdot : comp = ['.']
    · rw [resolveStep, if_pos hdot]
      exact ih hrest w s
    · have hstep : resolveStep (some (w :: s)) comp = some (w :: (s ++ [comp])) := by
        rw [resolveStep, if_neg hdot, if_neg hcomp]
        simp
      rw [hstep]
      exact ih hrest w (s ++ [comp])

/-! Claim theorems. -/

/-- C1: For every filename argument, the file operations `read_file`,
`save_file` and `delete_file` never access a path outside the workspace
directory: any filename containing `".."` or starting with `"/"` or `"\\"`
is rejected (`read_file` returns `None`, `save_file` and `delete_file`
return `False`) without touching the file system, and every accepted
filename resolves to a path inside `WORKSPACE_DIR`. -/
theorem workspace_path_checks_confine_file_ops
    (ws : Workspace) (st : SessionState) (filename content : PyStr) :
    (invalid_path filename = true →
       read_file ws filename = none ∧
       save_file ws filename content = (ws, false) ∧
       delete_file ws st filename = Except.ok (ws, st, false, [])) ∧
    (invalid_path filename = false → insideWorkspace filename = true) := by
  constructor
  · intro hbad
    refine ⟨?_, ?_, ?_⟩
    · rw [read_file]
      by_cases he : filename.isEmpty
      · rw [if_pos he]
      · rw [if_neg he, if_pos hbad]
    · rw [save_file]
      by_cases he : filename.isEmpty
      · rw [if_pos he]
      · rw [if_neg he, if_pos hbad]
    · rw [delete_file]
      by_cases he : filename.isEmpty
      · rw [if_pos he]
      · rw [if_neg he, if_pos hbad]
  · intro hok
    have hok' := hok
    rw [invalid_path, Bool.or_eq_false_iff] at hok'
    have hdot : hasDotDot filename = false := hok'.1
    have hcomps : ∀ comp ∈ pathComponents [] filename, comp ≠ ['.', '.'] := by
      intro comp hm heq
      have hfree := pathComponents_no_dotdot filename [] (by simpa using hdot) comp hm
      rw [heq] at hfree
      simp [hasDotDot] at hfree
    obtain ⟨s', hs'⟩ :=
      resolve_foldl_keeps_head (pathComponents [] filename) hcomps wsDirName []
    rw [insideWorkspace, resolvedPath, hs']
    simp

/-- Closed instance of the C1 theorem: a traversal filename is rejected by
all three operations, and an ordinary filename resolves inside the
workspace. -/
theorem workspace_path_checks_witness :
    (invalid_path "../etc/passwd".data = true ∧
       read_file [] "../etc/passwd".data = none ∧
       save_file [] "../etc/passwd".data "x".data = ([], false) ∧
       delete_file [] initialSession "../etc/passwd".data =
         Except.ok ([], initialSession, false, [])) ∧
    (invalid_path "app.py".data = false ∧ insideWorkspace "app.py".data = true) := by
  constructor
  · refine ⟨by decide, ?_⟩
    exact (workspace_path_checks_confine_file_ops [] initialSession
      "../etc/passwd".data "x".data).1 (by decide)
  · refine ⟨by decide, ?_⟩
    exact (workspace_path_checks_confine_file_ops [] initialSession
      "app.py".data "x".data).2 (by decide)

/-- C4: stop_preview always returns the supervisor to idle: after it runs,
the four session fields preview_process, preview_port, preview_url and
preview_file are all None in every branch (the clearing block at
src/app.py lines 515-519 runs after all exception handlers), while the
editor-related fields are untouched. -/
theorem stop_preview_always_clears_state (st : SessionState) :
    (stop_preview st).1.preview_process = none ∧
    (stop_preview st).1.preview_port = none ∧
    (stop_preview st).1.preview_url = none ∧
    (stop_preview st).1.preview_file = none ∧
    (stop_preview st).1.selected_file = st.selected_file ∧
    (stop_preview st).1.file_content_on_load = st.file_content_on_load ∧
    (stop_preview st).1.editor_unsaved_content = st.editor_unsaved_content ∧
    (stop_preview st).1.last_saved_content = st.last_saved_content := by
  simp [stop_preview]

/-- C5: stop_preview never force-kills before asking for graceful
termination: whenever `kill` appears in the process-control trace, the trace
is exactly terminate, a timed-out 3-second wait, kill, then a wait of at
most 1 second; a process that had already exited is neither terminated nor
killed. -/
theorem stop_preview_graceful_before_kill (st : SessionState) (p : Proc)
    (hp : st.preview_process = some p) :
    (ProcAction.kill ∈ (stop_preview st).2 →
       (stop_preview st).2 = [ProcAction.terminate, ProcAction.waitTimeout 3,
                              ProcAction.kill, ProcAction.waitOk 1] ∨
       (stop_preview st).2 = [ProcAction.terminate, ProcAction.waitTimeout 3,
                              ProcAction.kill, ProcAction.waitTimeout 1]) ∧
    (p.behavior = StopBehavior.alreadyExited →
       ProcAction.terminate ∉ (stop_preview st).2 ∧
       ProcAction.kill ∉ (stop_preview st).2) := by
  have hacts :
      (stop_preview st).2 = if p.pid ≠ 0 then stopActions p.behavior else [] := by
    simp [stop_preview, hp]
  rw [hacts]
  by_cases hpid : p.pid ≠ 0
  · rw [if_pos hpid]
    cases hb : p.behavior <;> decide
  · rw [if_neg hpid]
    simp

/-- Closed instance of the C5 theorem: a process that ignores terminate for
the full 3-second budget is killed only after that budget, then waited on
for at most a second. -/
theorem stop_preview_graceful_before_kill_witness :
    (stop_preview { initialSession with
        preview_process := some { pid := 42, behavior := StopBehavior.timeoutKill } }).2 =
      [ProcAction.terminate, ProcAction.waitTimeout 3,
       ProcAction.kill, ProcAction.waitOk 1] ∨
    (stop_preview { initialSession with
        preview_process := some { pid := 42, behavior := StopBehavior.timeoutKill } }).2 =
      [ProcAction.terminate, ProcAction.waitTimeout 3,
       ProcAction.kill, ProcAction.waitTimeout 1] :=
  (stop_preview_graceful_before_kill _ _ rfl).1 (by decide)

/-- C2: at most one preview process is tracked: the session state holds a
single optional handle, and whenever start_preview goes on to spawn a new
process while a handle was recorded, the very first event of the call is the
stop of that recorded process, so no second live handle is ever held. -/
theorem start_preview_stops_existing_before_spawn
    (st : SessionState) (ws : Workspace) (f : PyStr) (port : Nat)
    (o : SpawnOutcome) (p q : Proc)
    (hp : st.preview_process = some p)
    (hq : PreviewEvent.spawned q ∈ (start_preview st ws f port o).2.2) :
    (start_preview st ws f port o).2.2.head? =
      some (PreviewEvent.stoppedPrev p (stop_preview st).2) := by
  rw [start_preview] at hq ⊢
  by_cases hguard : startGuardFails ws f = true
  · rw [if_pos hguard] at hq
    simp at hq
  · rw [if_neg hguard] at hq ⊢
    cases o with
    | spawnRaises => simp [hp]
    | spawnedProc p' alive => cases alive <;> simp [hp]

/-- Closed instance of the C2 theorem: with a recorded preview process and a
successful new spawn, the recorded process is stopped first. -/
theorem start_preview_stops_existing_witness :
    (start_preview
        { initialSession with
            preview_process := some { pid := 7, behavior := StopBehavior.graceful } }
        [("a.py".data, "x".data)] "a.py".data 8501
        (SpawnOutcome.spawnedProc { pid := 9, behavior := StopBehavior.graceful } true)).2.2.head? =
      some (PreviewEvent.stoppedPrev { pid := 7, behavior := StopBehavior.graceful }
        (stop_preview
          { initialSession with
              preview_process := some { pid := 7, behavior := StopBehavior.graceful } }).2) :=
  start_preview_stops_existing_before_spawn _ _ _ _ _ _
    { pid := 9, behavior := StopBehavior.graceful } rfl (by decide)

/-- C3: start_preview returns True exactly when the spawned process is still
alive (poll() is None) after the fixed 2.5-second startup sleep, in which
case preview_process, preview_port, preview_url and preview_file are
recorded; when the process has exited or spawning raised, it returns False
and preview_process is left or reset to None. -/
theorem start_preview_liveness_gate
    (st : SessionState) (ws : Workspace) (f : PyStr) (port : Nat)
    (o : SpawnOutcome) (hguard : startGuardFails ws f = false) :
    ((start_preview st ws f port o).2.1 = true ↔
       ∃ p, o = SpawnOutcome.spawnedProc p true) ∧
    (∀ p, o = SpawnOutcome.spawnedProc p true →
       (start_preview st ws f port o).1.preview_process = some p ∧
       (start_preview st ws f port o).1.preview_port = some port ∧
       (start_preview st ws f port o).1.preview_url = some (previewUrl port) ∧
       (start_preview st ws f port o).1.preview_file = some f) ∧
    ((start_preview st ws f port o).2.1 = false →
       (start_preview st ws f port o).1.preview_process = none) := by
  rw [start_preview, if_neg (by simp [hguard])]
  cases o with
  | spawnRaises =>
    cases hpp : st.preview_process <;> simp [hpp]
  | spawnedProc p' alive =>
    cases hpp : st.preview_process <;> cases alive <;> simp [hpp]

/-- Closed instance of the C3 theorem: from the idle session, a spawn that
is still alive after the startup sleep records all four preview fields and
returns True. -/
theorem start_preview_liveness_gate_witness :
    (start_preview initialSession [("a.py".data, "x".data)] "a.py".data 8501
        (SpawnOutcome.spawnedProc { pid := 9, behavior := StopBehavior.graceful } true)).1.preview_process =
      some { pid := 9, behavior := StopBehavior.graceful } ∧
    (start_preview initialSession [("a.py".data, "x".data)] "a.py".data 8501
        (SpawnOutcome.spawnedProc { pid := 9, behavior := StopBehavior.graceful } true)).1.preview_port =
      some 8501 ∧
    (start_preview initialSession [("a.py".data, "x".data)] "a.py".data 8501
        (SpawnOutcome.spawnedProc { pid := 9, behavior := StopBehavior.graceful } true)).1.preview_url =
      some (previewUrl 8501) ∧
    (start_preview initialSession [("a.py".data, "x".data)] "a.py".data 8501
        (SpawnOutcome.spawnedProc { pid := 9, behavior := StopBehavior.graceful } true)).1.preview_file =
      some "a.py".data :=
  (start_preview_liveness_gate initialSession [("a.py".data, "x".data)]
      "a.py".data 8501
      (SpawnOutcome.spawnedProc { pid := 9, behavior := StopBehavior.graceful } true)
      (by decide)).2.1
    { pid := 9, behavior := StopBehavior.graceful } rfl

/-- Universal-newlines translation is the identity on carriage-return free
content. -/
theorem univNewlines_id_of_no_cr (c : PyStr) (h : ∀ ch ∈ c, ch ≠ '\r') :
    universalNewlines c = c := by
  induction c with
  | nil => rfl
  | cons a rest ih =>
    have ha : a ≠ '\r' := h a (List.mem_cons_self _ _)
    cases rest with
    | nil => simp [universalNewlines, ha]
    | cons d rest2 =>
      rw [universalNewlines, if_neg ha,
          ih (fun ch hm => h ch (List.mem_cons_of_mem _ hm))]

/-- Removing a file really removes its association-list entry. -/
theorem wsRead_wsRemove (ws : Workspace) (f : PyStr) :
    wsRead (wsRemove ws f) f = none := by
  have hfind : (wsRemove ws f).find? (fun e => decide (e.1 = f)) = none := by
    rw [List.find?_eq_none]
    intro e he
    have h2 := (List.mem_filter.mp he).2
    simp only [decide_eq_true_eq] at h2 ⊢
    exact h2
  rw [wsRead, hfind]
  rfl

/-- Reading back an inserted file yields the raw stored content. -/
theorem wsRead_wsInsert (ws : Workspace) (f c : PyStr) :
    wsRead (wsInsert ws f c) f = some c := by
  rw [wsInsert, wsRead, List.find?_cons_of_pos _ (by simp)]
  rfl

/-- C8 counterexample: saving content that contains a carriage return
succeeds, but the immediately following read returns the content with the
carriage return translated to a newline by Python's text-mode
universal-newlines handling, not the content verbatim. -/
theorem save_read_carriage_return_mismatch :
    (save_file [] "a.py".data "x\ry".data).2 = true ∧
    read_file (save_file [] "a.py".data "x\ry".data).1 "a.py".data ≠
      some "x\ry".data ∧
    read_file (save_file [] "a.py".data "x\ry".data).1 "a.py".data =
      some "x\ny".data := by
  refine ⟨rfl, by decide, rfl⟩

/-- C8 (amended): for every filename accepted by the path checks and every
text content free of carriage returns, if save_file returns True then an
immediately following read_file returns exactly the content (files are
written and read wholesale in UTF-8; contents containing a carriage return
are read back with it normalized to a newline). -/
theorem save_read_roundtrip_no_cr (ws : Workspace) (f c : PyStr)
    (hsave : (save_file ws f c).2 = true)
    (hcr : ∀ ch ∈ c, ch ≠ '\r') :
    read_file (save_file ws f c).1 f = some c := by
  rw [save_file] at hsave ⊢
  by_cases he : f.isEmpty
  · rw [if_pos he] at hsave
    exact absurd hsave (by simp)
  · rw [if_neg he] at hsave ⊢
    by_cases hbad : invalid_path f = true
    · rw [if_pos hbad] at hsave
      exact absurd hsave (by simp)
    · rw [if_neg hbad] at hsave ⊢
      rw [read_file, if_neg he, if_neg hbad]
      show ((wsRead (wsInsert ws f c) f).map universalNewlines) = some c
      rw [wsRead_wsInsert]
      simp [univNewlines_id_of_no_cr c hcr]

/-- Closed instance of the C8 amended theorem at a concrete file. -/
theorem save_read_roundtrip_witness :
    read_file (save_file [] "app.py".data "print(1)\n".data).1 "app.py".data =
      some "print(1)\n".data :=
  save_read_roundtrip_no_cr [] "app.py".data "print(1)\n".data rfl (by decide)

/-- A string starts with any prefix it extends. -/
theorem startsWithL_append (pre t : PyStr) : startsWithL (pre ++ t) pre = true := by
  rw [startsWithL, decide_eq_true_eq]
  exact List.take_left pre t

/-- Starting with the json fence implies starting with the bare fence. -/
theorem startsWith_json_imp_fence (text : PyStr)
    (h : startsWithL text "```json".data = true) :
    startsWithL text "```".data = true := by
  rw [startsWithL, decide_eq_true_eq] at h ⊢
  have h7 : List.take 7 text = "```json".data := h
  have h37 : List.take 3 text = List.take 3 (List.take 7 text) := by
    rw [List.take_take]
    norm_num
  show List.take 3 text = "```".data
  rw [h37, h7]
  rfl

/-- Dropping a leading block from a `take` slice keeps the matching slice of
the remainder: this is the arithmetic core of the Python slice `text[a:-3]`
once `text = pre ++ t` with `pre` of length `a`. -/
theorem slice_fence (pre t : PyStr) :
    ((pre ++ t).take ((pre ++ t).length - 3)).drop pre.length =
      t.take (t.length - 3) := by
  rw [List.drop_take, List.drop_left, List.length_append]
  congr 1
  omega

/-- C9: for every response text whose stripped form starts with the json
code fence (respectively the bare fence), _clean_ai_response_text removes
the 7 (respectively 3) fence characters and unconditionally removes the
last 3 characters, whether or not the text actually ends with a closing
fence, stripping the remainder; text starting with no fence is returned
stripped of surrounding whitespace but otherwise unchanged. -/
theorem clean_ai_response_fence_slicing (s t : PyStr) :
    (pyStrip s = "```json".data ++ t →
       cleanAiResponseText s = pyStrip (t.take (t.length - 3))) ∧
    (pyStrip s = "```".data ++ t →
       startsWithL (pyStrip s) "```json".data = false →
       cleanAiResponseText s = pyStrip (t.take (t.length - 3))) ∧
    (startsWithL (pyStrip s) "```".data = false →
       cleanAiResponseText s = pyStrip s) := by
  refine ⟨?_, ?_, ?_⟩
  · intro h
    rw [cleanAiResponseText, h, if_pos (startsWithL_append "```json".data t)]
    have hs : List.drop 7
        (List.take (("```json".data ++ t).length - 3) ("```json".data ++ t)) =
        t.take (t.length - 3) := slice_fence "```json".data t
    rw [hs]
  · intro h hjson
    rw [h] at hjson
    have hjson' :
        startsWithL ('`' :: '`' :: '`' :: t)
          ['`', '`', '`', 'j', 's', 'o', 'n'] = false := hjson
    rw [cleanAiResponseText, h, if_neg (by simp [hjson']),
        if_pos (startsWithL_append "```".data t)]
    have hs : List.drop 3
        (List.take (("```".data ++ t).length - 3) ("```".data ++ t)) =
        t.take (t.length - 3) := slice_fence "```".data t
    rw [hs]
  · intro h
    have hjson : startsWithL (pyStrip s) "```json".data = false := by
      cases hjj : startsWithL (pyStrip s) "```json".data
      · rfl
      · have hf := startsWith_json_imp_fence _ hjj
        rw [hf] at h
        exact absurd h (by simp)
    rw [cleanAiResponseText, if_neg (by simp [hjson]), if_neg (by simp [h])]

/-- Closed instance of the C9 theorem: a response opening with the json
fence but not ending with a closing fence still loses its final three
characters. -/
theorem clean_ai_response_fence_witness :
    cleanAiResponseText "```json [1,2]".data =
      pyStrip ((" [1,2]".data).take ((" [1,2]".data).length - 3)) :=
  (clean_ai_response_fence_slicing "```json [1,2]".data " [1,2]".data).1 (by decide)

/-- C6: for every input string whose fence-stripped form is not valid JSON,
parse_and_execute_ai_commands does not raise and does not halt (the result
is a normal `Except.ok` return), performs no file-system operation —
workspace and session state come back unchanged — and returns a
single-element list with one chat record reporting the JSON error; valid
JSON that is not a list likewise yields a single chat error record and no
file operations. -/
theorem parse_errors_reported_without_side_effects
    (loads : PyStr → Option Json) (input : PyStr) (ws : Workspace)
    (st : SessionState) :
    (loads (cleanAiResponseText input) = none →
       parse_and_execute_ai_commands loads input ws st =
         Except.ok (ws, st,
          [chatRec ("AI Error: Invalid JSON received. Response: ".data ++ input)])) ∧
    (∀ j, loads (cleanAiResponseText input) = some j → (∀ l, j ≠ Json.arr l) →
       parse_and_execute_ai_commands loads input ws st =
         Except.ok (ws, st,
          [chatRec ("AI Error: Response was not a list. Response: ".data
                    ++ cleanAiResponseText input)])) := by
  constructor
  · intro h
    rw [parse_and_execute_ai_commands, h]
  · intro j hj hnot
    rw [parse_and_execute_ai_commands, hj]
    cases j with
    | arr l => exact absurd rfl (hnot l)
    | null => rfl
    | bool b => rfl
    | num n => rfl
    | str s2 => rfl
    | obj fl => rfl

/-- Closed instance of the C6 theorem: a failing parse reports the error and
leaves the workspace and the session untouched. -/
theorem parse_errors_witness :
    parse_and_execute_ai_commands (fun _ => none) "not json".data [] initialSession =
      Except.ok ([], initialSession,
       [chatRec ("AI Error: Invalid JSON received. Response: ".data
                 ++ "not json".data)]) :=
  (parse_errors_reported_without_side_effects (fun _ => none) "not json".data []
    initialSession).1 rfl

/-- The command loop processes strictly in sequence: once a first batch ran
without an escaping exception, running the concatenation continues from
exactly the workspace, session state and display list the first batch
produced — nothing later can undo its effects. -/
theorem execLoop_append (c₁ c₂ : List Json) :
    ∀ ws st acc ws' st' acc',
      execLoop c₁ ws st acc = Except.ok (ws', st', acc') →
      execLoop (c₁ ++ c₂) ws st acc = execLoop c₂ ws' st' acc' := by
  induction c₁ with
  | nil =>
    intro ws st acc ws' st' acc' h
    rw [execLoop] at h
    simp only [Except.ok.injEq, Prod.mk.injEq] at h
    obtain ⟨rfl, rfl, rfl⟩ := h
    rfl
  | cons cmd rest ih =>
    intro ws st acc ws' st' acc' h
    rw [List.cons_append]
    rw [execLoop] at h ⊢
    cases hstep : execStep cmd ws st acc with
    | ok r =>
      obtain ⟨ws1, st1, acc1⟩ := r
      rw [hstep] at h
      exact ih ws1 st1 acc1 ws' st' acc' h
    | error e =>
      rw [hstep] at h
      exact Except.noConfusion h

/-- C7 (amended): command application is sequential and non-transactional:
parse_and_execute_ai_commands applies each command of a parsed list in
order via direct file-system calls, and the effects of earlier commands are
never rolled back by later malformed commands or failing file operations.
A malformed command the loop itself handles (a non-dict entry, missing
fields, a failing file operation) only appends an error chat record and
continues; however a command whose filename makes the path guard itself
raise (for example a numeric filename) escapes the loop and abandons the
remaining commands — still leaving all earlier effects applied. -/
theorem exec_commands_sequential_no_rollback
    (c₁ c₂ : List Json) (ws ws' : Workspace) (st st' : SessionState)
    (acc acc' : List Json)
    (h : execLoop c₁ ws st acc = Except.ok (ws', st', acc')) :
    execLoop (c₁ ++ c₂) ws st acc = execLoop c₂ ws' st' acc' ∧
    (∀ cmd rest, (∀ fl, cmd ≠ Json.obj fl) →
       execLoop (cmd :: rest) ws st acc =
         execLoop rest ws st
           (acc ++ [chatRec ("AI Error: Invalid command format: ".data
                             ++ pyStr cmd)])) := by
  constructor
  · exact execLoop_append c₁ c₂ ws st acc ws' st' acc' h
  · intro cmd rest hnd
    have hstep : execStep cmd ws st acc =
        Except.ok (ws, st,
          acc ++ [chatRec ("AI Error: Invalid command format: ".data
                           ++ pyStr cmd)]) := by
      cases cmd with
      | obj fl => exact absurd rfl (hnd fl)
      | null => rfl
      | bool b => rfl
      | num n => rfl
      | str s2 => rfl
      | arr l => rfl
    rw [execLoop, hstep]

/-- Closed instance of the C7 amended theorem: after a first chat command
ran, the loop continues on the rest from the state it produced. -/
theorem exec_commands_sequential_witness :
    execLoop ([Json.obj [("action".data, Json.str "chat".data)]] ++ [Json.num 3])
        [] initialSession [] =
      execLoop [Json.num 3] [] initialSession
        [Json.obj [("action".data, Json.str "chat".data)]] :=
  (exec_commands_sequential_no_rollback
      [Json.obj [("action".data, Json.str "chat".data)]] [Json.num 3]
      [] [] initialSession initialSession []
      [Json.obj [("action".data, Json.str "chat".data)]] rfl).1

/-- C7 counterexample: on the concrete decoded list typeErrCommands the
second command's numeric filename makes the guard `".." in filename` inside
delete_file raise TypeError; the generic handler of
parse_and_execute_ai_commands then replaces the whole display list with one
error record and the third command is never applied, so a malformed command
does not merely append an error chat record and continue.  The first
command's file does survive — the returned workspace is exactly the one the
first command produced, with no b.py in it: nothing is rolled back. -/
theorem command_typeerror_aborts_remaining :
    parse_and_execute_ai_commands (fun _ => some (Json.arr typeErrCommands))
        "ignored".data [] initialSession =
      Except.ok ([("a.py".data, "x".data)], initialSession,
        [chatRec "Error processing commands: TypeError".data]) ∧
    wsRead [("a.py".data, "x".data)] "b.py".data = none :=
  ⟨rfl, rfl⟩

/-- C10 counterexample: deleting the file that is both being previewed and
selected in the editor does remove it and stop the preview, but the
st.rerun() at the end of the embedded stop_preview halts the script run
(`Except.error`), so delete_file never returns True and never clears the
editor selection — the halt state still carries
`selected_file = some "a.py"`.  This refutes the claim that a successful
delete of the selected file clears the selection and the editor fields. -/
theorem delete_previewed_file_halts_script :
    delete_file [("a.py".data, "x".data)]
      { initialSession with
          selected_file := some "a.py".data
          preview_file := some "a.py".data
          preview_process := some { pid := 5, behavior := StopBehavior.graceful } }
      "a.py".data =
    Except.error ([],
      { initialSession with selected_file := some "a.py".data },
      [ProcAction.terminate, ProcAction.waitOk 3]) :=
  rfl

/-- C10 (amended): delete_file keeps the session state consistent with the
workspace as far as one script run goes.  A delete that returns normally can
only be of a file that was not being previewed; it removes the file, issues
no process-control calls, clears the selection and all three editor content
fields when the file was the one selected in the editor, and otherwise
leaves the session state unchanged.  When the deleted file was being
previewed, the file is removed and the preview is stopped — the four preview
fields cleared and the branch-appropriate process-control trace issued —
but st.rerun() inside stop_preview then halts the script run, so the editor
selection and content fields are left untouched and True is never returned.
Deleting a filename that is not an existing file returns False and changes
neither the workspace nor the session state. -/
theorem delete_file_state_consistency
    (ws : Workspace) (st : SessionState) (f : PyStr) :
    (∀ ws' st' b acts,
       delete_file ws st f = Except.ok (ws', st', b, acts) → b = true →
       wsRead ws' f = none ∧
       st.preview_file ≠ some f ∧
       acts = [] ∧
       (st.selected_file = some f →
          st'.selected_file = none ∧
          st'.file_content_on_load = [] ∧
          st'.editor_unsaved_content = [] ∧
          st'.last_saved_content = []) ∧
       (st.selected_file ≠ some f → st' = st)) ∧
    (∀ ws' st' acts,
       delete_file ws st f = Except.error (ws', st', acts) →
       st.preview_file = some f ∧
       wsRead ws' f = none ∧
       st'.preview_process = none ∧
       st'.preview_port = none ∧
       st'.preview_url = none ∧
       st'.preview_file = none ∧
       st'.selected_file = st.selected_file ∧
       st'.file_content_on_load = st.file_content_on_load ∧
       st'.editor_unsaved_content = st.editor_unsaved_content ∧
       st'.last_saved_content = st.last_saved_content ∧
       (∀ p, st.preview_process = some p → p.pid ≠ 0 →
          acts = stopActions p.behavior)) ∧
    ((wsRead ws f).isSome = false →
       delete_file ws st f = Except.ok (ws, st, false, [])) := by
  by_cases he : f.isEmpty
  · refine ⟨?_, ?_, ?_⟩
    · intro ws' st' b acts heq htrue
      rw [delete_file, if_pos he] at heq
      simp only [Except.ok.injEq, Prod.mk.injEq] at heq
      obtain ⟨-, -, hb, -⟩ := heq
      rw [← hb] at htrue
      exact absurd htrue (by simp)
    · intro ws' st' acts heq
      rw [delete_file, if_pos he] at heq
      exact Except.noConfusion heq
    · intro _
      rw [delete_file, if_pos he]
  · by_cases hbad : invalid_path f = true
    · refine ⟨?_, ?_, ?_⟩
      · intro ws' st' b acts heq htrue
        rw [delete_file, if_neg he, if_pos hbad] at heq
        simp only [Except.ok.injEq, Prod.mk.injEq] at heq
        obtain ⟨-, -, hb, -⟩ := heq
        rw [← hb] at htrue
        exact absurd htrue (by simp)
      · intro ws' st' acts heq
        rw [delete_file, if_neg he, if_pos hbad] at heq
        exact Except.noConfusion heq
      · intro _
        rw [delete_file, if_neg he, if_pos hbad]
    · by_cases hex : (wsRead ws f).isSome
      · by_cases hpf : st.preview_file = some f
        · refine ⟨?_, ?_, ?_⟩
          · intro ws' st' b acts heq _
            rw [delete_file, if_neg he, if_neg hbad, if_pos hex, if_pos hpf] at heq
            exact Except.noConfusion heq
          · intro ws' st' acts heq
            rw [delete_file, if_neg he, if_neg hbad, if_pos hex, if_pos hpf] at heq
            simp only [Except.error.injEq, Prod.mk.injEq] at heq
            obtain ⟨hw, hs, ha⟩ := heq
            subst hw
            subst hs
            subst ha
            refine ⟨hpf, wsRead_wsRemove ws f, ?_, ?_, ?_, ?_, ?_, ?_, ?_, ?_, ?_⟩
            · simp [stop_preview]
            · simp [stop_preview]
            · simp [stop_preview]
            · simp [stop_preview]
            · simp [stop_preview]
            · simp [stop_preview]
            · simp [stop_preview]
            · simp [stop_preview]
            · intro p hp hpid
              simp [stop_preview, hp, hpid]
          · intro hns
            simp [hex] at hns
        · refine ⟨?_, ?_, ?_⟩
          · intro ws' st' b acts heq _
            rw [delete_file, if_neg he, if_neg hbad, if_pos hex, if_neg hpf] at heq
            by_cases hsel : st.selected_file = some f
            · rw [if_pos hsel] at heq
              simp only [Except.ok.injEq, Prod.mk.injEq] at heq
              obtain ⟨hw, hs, -, ha⟩ := heq
              subst hw
              subst hs
              subst ha
              refine ⟨wsRead_wsRemove ws f, hpf, rfl, ?_, ?_⟩
              · intro _
                simp [clearedEditor]
              · intro hns
                exact absurd hsel hns
            · rw [if_neg hsel] at heq
              simp only [Except.ok.injEq, Prod.mk.injEq] at heq
              obtain ⟨hw, hs, -, ha⟩ := heq
              subst hw
              subst hs
              subst ha
              refine ⟨wsRead_wsRemove ws f, hpf, rfl, ?_, fun _ => rfl⟩
              intro hsel'
              exact absurd hsel' hsel
          · intro ws' st' acts heq
            rw [delete_file, if_neg he, if_neg hbad, if_pos hex, if_neg hpf] at heq
            by_cases hsel : st.selected_file = some f
            · rw [if_pos hsel] at heq
              exact Except.noConfusion heq
            · rw [if_neg hsel] at heq
              exact Except.noConfusion heq
          · intro hns
            simp [hex] at hns
      · refine ⟨?_, ?_, ?_⟩
        · intro ws' st' b acts heq htrue
          rw [delete_file, if_neg he, if_neg hbad, if_neg hex] at heq
          simp only [Except.ok.injEq, Prod.mk.injEq] at heq
          obtain ⟨-, -, hb, -⟩ := heq
          rw [← hb] at htrue
          exact absurd htrue (by simp)
        · intro ws' st' acts heq
          rw [delete_file, if_neg he, if_neg hbad, if_neg hex] at heq
          exact Except.noConfusion heq
        · intro _
          rw [delete_file, if_neg he, if_neg hbad, if_neg hex]

/-- Closed instance of the C10 amended theorem: a normal-return delete of
the selected (not previewed) file removes it and resets the editor fields
to their defaults. -/
theorem delete_file_state_consistency_witness :
    wsRead ([] : Workspace) "a.py".data = none ∧
    initialSession.selected_file = none ∧
    initialSession.file_content_on_load = [] ∧
    initialSession.editor_unsaved_content = [] ∧
    initialSession.last_saved_content = [] := by
  have h := (delete_file_state_consistency [("a.py".data, "x".data)]
      { initialSession with selected_file := some "a.py".data } "a.py".data).1
      [] initialSession true [] rfl rfl
  have hc := h.2.2.2.1 rfl
  exact ⟨h.1, hc.1, hc.2.1, hc.2.2.1, hc.2.2.2⟩
